import Mathlib

/-! GoDBSniffer: a shallow embedding of the diagnostic probes and their orchestration.

The Go program connects to a MySQL server, prints part of the schema and runs
three probe groups (health, security, performance).  Every function of the
program that the properties below talk about is embedded as a Lean function.

* The database server is a record `Server` holding the reply to every
  statement the program sends.
* Go `error` values are their messages (`GoError := String`).
* Effects (statements sent, text printed, tables rendered, process exit) are
  collected in a list of `Event`s, in program order.
* Go `int` values are `Int`; `float64` values that are compared or truncated to
  an integer are modelled exactly (see `round53`).
-/

namespace GoDBSniffer

/-! ## Go values -/

/-- Go `error`, represented by the text of `err.Error()`. -/
abbrev GoError := String

/-- Outcome of `db.Query` followed by the `rows.Next()`/`rows.Scan` loop: the
query itself fails, or it yields rows each of which decodes or fails to. -/
abbrev Rows (α : Type) := Except GoError (List (Except GoError α))

/-- One row handed to `tablewriter.Table.Append`. -/
abbrev Row := List String

/-- Go `sql.NullString`. -/
structure NullString where
  Str : String
  Valid : Bool
  deriving DecidableEq, Repr

/-- The struct `database.Column`: one line of `DESCRIBE <table>`. -/
structure Column where
  Field : String
  Typ : String
  Null : String
  Key : String
  Default : NullString
  Extra : String
  deriving DecidableEq, Repr

/-- The struct `config.DBConfig`. -/
structure DBConfig where
  Host : String
  Port : Int
  User : String
  Password : String
  Database : String
  deriving DecidableEq, Repr

/-- One decoded row of the statement sent by `checkIndexUsage`, in the order of
its `rows.Scan` call. -/
structure IndexRow where
  schema : String
  tableName : String
  tableRows : Int
  indexSize : Int
  dataSize : Int
  totalSize : Int
  deriving DecidableEq, Repr

/-- Effects of the program, in the order they happen. -/
inductive Event where
  | sqlOpen (dsn : String)
  | ping
  | query (sql : String)
  | stdout (text : String)
  | colored (color : String) (line : String)
  | setColor (color : String)
  | unsetColor
  | logged (text : String)
  | render (header : List String) (rows : List Row)
  | fatal (text : String)
  | dbClose
  deriving DecidableEq, Repr

/-- The MySQL server as the program sees it: whether `sql.Open` and `db.Ping`
fail, and the reply to each statement the program sends. -/
structure Server where
  openErr : Option GoError
  pingErr : Option GoError
  showTables : Rows String
  describe : String → Rows Column
  uptime : Except GoError Int
  threadsConnected : Except GoError Int
  slowQueries : Except GoError Int
  bufferPool : Rows (String × ℚ)
  openTables : Except GoError Int
  tableOpenCache : Except GoError Int
  emptyPasswordUsers : Rows (String × String)
  superUsers : Rows (String × String)
  version : Except GoError String
  unindexedTables : Rows IndexRow

/-- Standard-library operations whose results are only displayed: the text of
a `time.Duration` of whole seconds, binary64 division and multiplication, and
the verb `%.2f`. -/
structure Lib where
  fmtDuration : Int → String
  fdiv : ℚ → ℚ → ℚ
  fmul : ℚ → ℚ → ℚ
  fmtFixed2 : ℚ → String

/-- What a probe group leaves behind: the error it returns (`none` for `nil`),
the rows appended to its table, and its effects. -/
structure GroupResult where
  err : Option GoError
  table : List Row
  events : List Event

/-- The statements sent to the server by an execution. -/
def queriesOf (evs : List Event) : List String :=
  evs.filterMap fun ev => match ev with
    | .query q => some q
    | _ => none

/-- The cyan lines of an execution: each probe group starts by printing one. -/
def bannersOf (evs : List Event) : List String :=
  evs.filterMap fun ev => match ev with
    | .colored "cyan" s => some s
    | _ => none

/-- The tables rendered by an execution. -/
def rendersOf (evs : List Event) : List (List String × List Row) :=
  evs.filterMap fun ev => match ev with
    | .render h rows => some (h, rows)
    | _ => none

/-! ## Package `database` -/

/-- The DSN built by `ConnectDatabase`. -/
def dsnOf (config : DBConfig) : String :=
  config.User ++ ":" ++ config.Password ++ "@tcp(" ++ config.Host ++ ":" ++
    toString config.Port ++ ")/" ++ config.Database ++ "?parseTime=true"

/-- Go function `database.ConnectDatabase`: `.ok ()` stands for the live
handle, `.error` for `(nil, err)`. -/
def ConnectDatabase (srv : Server) (config : DBConfig) : Except GoError Unit × List Event :=
  match srv.openErr with
  | some e => (.error ("error opening database: " ++ e), [.sqlOpen (dsnOf config)])
  | none =>
    match srv.pingErr with
    | some e => (.error ("error connecting to database: " ++ e), [.sqlOpen (dsnOf config), .ping])
    | none => (.ok (), [.sqlOpen (dsnOf config), .ping])

/-- The `rows.Next()` loop of `GetTables`. -/
def GetTablesLoop : List (Except GoError String) → List String → Except GoError (List String)
  | [], tables => .ok tables
  | .error e :: _, _ => .error e
  | .ok tableName :: rest, tables => GetTablesLoop rest (tables ++ [tableName])

/-- Go function `database.GetTables`. -/
def GetTables (srv : Server) : Except GoError (List String) × List Event :=
  match srv.showTables with
  | .error e => (.error e, [.query "SHOW TABLES"])
  | .ok rows => (GetTablesLoop rows [], [.query "SHOW TABLES"])

/-- The `rows.Next()` loop of `GetTableSchema`. -/
def GetTableSchemaLoop : List (Except GoError Column) → List Column → Except GoError (List Column)
  | [], columns => .ok columns
  | .error e :: _, _ => .error e
  | .ok col :: rest, columns => GetTableSchemaLoop rest (columns ++ [col])

/-- Go function `database.GetTableSchema`. -/
def GetTableSchema (srv : Server) (tableName : String) :
    Except GoError (List Column) × List Event :=
  match srv.describe tableName with
  | .error e => (.error e, [.query ("DESCRIBE " ++ tableName)])
  | .ok rows => (GetTableSchemaLoop rows [], [.query ("DESCRIBE " ++ tableName)])

/-! ## `displayDatabaseInfo` (package `main`) -/

/-- The row appended for one column. -/
def columnRow (col : Column) : Row :=
  [col.Field, col.Typ, col.Null, col.Key, col.Default.Str, col.Extra]

/-- The inner loop of `displayDatabaseInfo`, with its counter `columnCount`. -/
def appendColumns : List Column → Nat → List Row → List Row
  | [], _, tw => tw
  | col :: rest, columnCount, tw =>
    if columnCount ≥ 10 then tw else appendColumns rest (columnCount + 1) (tw ++ [columnRow col])

/-- Header of the per-table column listing. -/
def columnHeader : List String := ["Column", "Type", "Null", "Key", "Default", "Extra"]

/-- The outer loop of `displayDatabaseInfo`, with its counter `displayCount`.
Returns the final counter, whether `log.Fatalf` ended the process, and the
effects. -/
def displayTables (srv : Server) : List String → Nat → Nat × Bool × List Event
  | [], displayCount => (displayCount, false, [])
  | table :: rest, displayCount =>
    if displayCount ≥ 5 then (displayCount, false, [])
    else
      match GetTableSchema srv table with
      | (.error e, ev) =>
        (displayCount, true,
          [.stdout ("\n" ++ table ++ "\n")] ++ ev ++
            [.fatal ("Error retrieving schema for table " ++ table ++ ": " ++ e)])
      | (.ok columns, ev) =>
        let r := displayTables srv rest (displayCount + 1)
        (r.1, r.2.1,
          [.stdout ("\n" ++ table ++ "\n")] ++ ev ++
            [.render columnHeader (appendColumns columns 0 [])] ++ r.2.2)

/-- The summary line printed when more than five tables exist. -/
def summaryLine (displayCount total : Nat) : String :=
  "\nDisplayed " ++ toString displayCount ++ " of " ++ toString total ++
    " tables. For more details, check the database directly.\n"

/-- Go function `displayDatabaseInfo`.  The first component tells whether
`log.Fatalf` ended the process. -/
def displayDatabaseInfo (srv : Server) : Bool × List Event :=
  match GetTables srv with
  | (.error e, ev) => (true, ev ++ [.fatal ("Error retrieving tables: " ++ e)])
  | (.ok tables, ev) =>
    let r := displayTables srv tables 0
    if r.2.1 then (true, ev ++ [.stdout "\nTables in the database:\n"] ++ r.2.2)
    else if tables.length > 5 then
      (false, ev ++ [.stdout "\nTables in the database:\n"] ++ r.2.2 ++
        [.stdout (summaryLine r.1 tables.length)])
    else (false, ev ++ [.stdout "\nTables in the database:\n"] ++ r.2.2)

/-! ## IEEE 754 binary64 arithmetic used by `getOpenTables` -/

/-- Search upward from `s` for the least shift with `N / 2^s < 2^53`. -/
def excessBitsAux : Nat → Nat → Nat → Nat
  | 0, _, s => s
  | fuel + 1, N, s => if N / 2 ^ s < 2 ^ 53 then s else excessBitsAux fuel N (s + 1)

/-- Number of low-order bits of `N` that do not fit a 53-bit significand. -/
def excessBits (N : Nat) : Nat := excessBitsAux N N 0

/-- Round a magnitude to the nearest value with a 53-bit significand, ties to
even: the rounding every binary64 operation applies to its exact result (the
exponent range plays no role for the magnitudes met here). -/
def round53 (N : Nat) : Nat :=
  let s := excessBits N
  let m := N / 2 ^ s
  let rem := N % 2 ^ s
  if 2 ^ s < 2 * rem ∨ (2 * rem = 2 ^ s ∧ m % 2 = 1) then (m + 1) * 2 ^ s else m * 2 ^ s

/-- Numerator over `2^52` of the binary64 constant nearest to `0.8`
(`0x3FE999999999999A`). -/
def eightTenthsNum : Nat := 3602879701896397

/-- Magnitude of `int(0.8*float64(n))` for a magnitude `n`: convert `n` to
binary64, multiply by the constant `0.8` (one rounding), truncate. -/
def truncEightTenthsNat (n : Nat) : Nat :=
  round53 (eightTenthsNum * round53 n) / 2 ^ 52

/-- Go expression `int(0.8*float64(n))`; binary64 rounding and the truncation
toward zero are both symmetric in the sign. -/
def truncEightTenths (n : Int) : Int :=
  if 0 ≤ n then (truncEightTenthsNat n.toNat : Int) else -(truncEightTenthsNat (-n).toNat : Int)

/-- The text of `fmt.Sprintf("Warning: High open tables count: %d of %d", ...)`. -/
def warningStatus (openTables tableOpenCache : Int) : String :=
  "Warning: High open tables count: " ++ toString openTables ++ " of " ++ toString tableOpenCache

/-- The text of `fmt.Sprintf("Normal: %d open tables of %d cache limit", ...)`. -/
def normalStatus (openTables tableOpenCache : Int) : String :=
  "Normal: " ++ toString openTables ++ " open tables of " ++ toString tableOpenCache ++
    " cache limit"

/-- Status text built by `getOpenTables` from the two values it has read. -/
def openTablesStatus (openTables tableOpenCache : Int) : String :=
  if openTables > truncEightTenths tableOpenCache then warningStatus openTables tableOpenCache
  else normalStatus openTables tableOpenCache

/-! ## Package `health` -/

/-- Statement of `getUptime`. -/
def uptimeQuery : String := "SHOW GLOBAL STATUS LIKE 'Uptime'"

/-- Statement of `getActiveConnections`. -/
def threadsQuery : String := "SHOW GLOBAL STATUS LIKE 'Threads_connected'"

/-- Statement of `getSlowQueries`. -/
def slowQueriesQuery : String := "SHOW GLOBAL STATUS LIKE 'Slow_queries'"

/-- Statement of `getBufferPoolUsage`. -/
def bufferPoolQuery : String :=
  "SHOW GLOBAL STATUS WHERE Variable_name IN ('Innodb_buffer_pool_pages_total', 'Innodb_buffer_pool_pages_data');"

/-- First statement of `getOpenTables`. -/
def openTablesQuery : String := "SHOW GLOBAL STATUS LIKE 'Open_tables';"

/-- Second statement of `getOpenTables`. -/
def tableOpenCacheQuery : String := "SHOW VARIABLES LIKE 'table_open_cache';"

/-- Go function `getUptime`; the result is the number of seconds whose
`time.Duration` is returned. -/
def getUptime (srv : Server) : Except GoError Int × List Event :=
  (srv.uptime, [.query uptimeQuery])

/-- Go function `getActiveConnections`. -/
def getActiveConnections (srv : Server) : Except GoError Int × List Event :=
  (srv.threadsConnected, [.query threadsQuery])

/-- Go function `getSlowQueries`. -/
def getSlowQueries (srv : Server) : Except GoError Int × List Event :=
  (srv.slowQueries, [.query slowQueriesQuery])

/-- The `rows.Next()` loop of `getBufferPoolUsage` over the variables
`bufferPoolTotal` and `bufferPoolUsed`. -/
def bufferPoolLoop : List (Except GoError (String × ℚ)) → ℚ → ℚ → Except GoError (ℚ × ℚ)
  | [], bufferPoolTotal, bufferPoolUsed => .ok (bufferPoolTotal, bufferPoolUsed)
  | .error e :: _, _, _ => .error ("error scanning buffer pool data: " ++ e)
  | .ok (name, value) :: rest, bufferPoolTotal, bufferPoolUsed =>
    if name = "Innodb_buffer_pool_pages_total" then bufferPoolLoop rest value bufferPoolUsed
    else if name = "Innodb_buffer_pool_pages_data" then bufferPoolLoop rest bufferPoolTotal value
    else bufferPoolLoop rest bufferPoolTotal bufferPoolUsed

/-- The text of `fmt.Sprintf("%.2f%%", (used / total) * 100)`. -/
def usageText (lib : Lib) (bufferPoolUsed bufferPoolTotal : ℚ) : String :=
  lib.fmtFixed2 (lib.fmul (lib.fdiv bufferPoolUsed bufferPoolTotal) 100) ++ "%"

/-- Go function `getBufferPoolUsage`. -/
def getBufferPoolUsage (lib : Lib) (srv : Server) : Except GoError String × List Event :=
  match srv.bufferPool with
  | .error e => (.error ("error retrieving buffer pool status: " ++ e), [.query bufferPoolQuery])
  | .ok rows =>
    match bufferPoolLoop rows 0 0 with
    | .error e => (.error e, [.query bufferPoolQuery])
    | .ok (bufferPoolTotal, bufferPoolUsed) =>
      if bufferPoolTotal = 0 then (.ok "N/A", [.query bufferPoolQuery])
      else (.ok (usageText lib bufferPoolUsed bufferPoolTotal), [.query bufferPoolQuery])

/-- Go function `getOpenTables`. -/
def getOpenTables (srv : Server) : Except GoError String × List Event :=
  match srv.openTables with
  | .error e => (.error ("error retrieving open tables: " ++ e), [.query openTablesQuery])
  | .ok openTables =>
    match srv.tableOpenCache with
    | .error e =>
      (.error ("error retrieving table_open_cache setting: " ++ e),
        [.query openTablesQuery, .query tableOpenCacheQuery])
    | .ok tableOpenCache =>
      (.ok (openTablesStatus openTables tableOpenCache),
        [.query openTablesQuery, .query tableOpenCacheQuery])

/-- Header of the health table. -/
def healthHeader : List String := ["Metric", "Value", "Status", "Remarks"]

/-- The cyan line printed first by `CheckDatabaseUptime`. -/
def healthBanner : String := "\nRunning health checks..."

/-- The row appended for the uptime check. -/
def uptimeRow (lib : Lib) (uptime : Int) : Row :=
  ["Uptime", lib.fmtDuration uptime, "OK", "Database running time"]

/-- The row appended for the active-connections check. -/
def connectionsRow (activeConnections : Int) : Row :=
  ["Active Connections", toString activeConnections, "OK", "Number of current connections"]

/-- The row appended for the slow-queries check. -/
def slowQueriesRow (slowQueries : Int) : Row :=
  if slowQueries > 100 then
    ["Slow Queries", toString slowQueries, "Warning", "High number of slow queries"]
  else
    ["Slow Queries", toString slowQueries, "OK", "Acceptable number of slow queries"]

/-- The row appended for the buffer-pool check, with `buff_status`. -/
def bufferPoolRow (bufferUsage : String) : Row :=
  if bufferUsage = "N/A" then
    ["Buffer Pool Usage", bufferUsage, "Warning", "Percentage of buffer pool used"]
  else
    ["Buffer Pool Usage", bufferUsage, "OK", "Percentage of buffer pool used"]

/-- The row appended for the open-tables check. -/
def openTablesRow (openTableStatus : String) : Row :=
  ["Open Tables", "", openTableStatus,
    "Review table_open_cache if frequent opening/closing of tables."]

/-- Go function `health.CheckDatabaseUptime`. -/
def CheckDatabaseUptime (lib : Lib) (srv : Server) : GroupResult :=
  let ev0 : List Event := [.colored "cyan" healthBanner]
  match getUptime srv with
  | (.error e, ev1) => ⟨some ("error retrieving uptime: " ++ e), [], ev0 ++ ev1⟩
  | (.ok uptime, ev1) =>
    let t1 : List Row := [uptimeRow lib uptime]
    match getActiveConnections srv with
    | (.error e, ev2) =>
      ⟨some ("error retrieving active connections: " ++ e), t1, ev0 ++ ev1 ++ ev2⟩
    | (.ok activeConnections, ev2) =>
      let t2 := t1 ++ [connectionsRow activeConnections]
      match getSlowQueries srv with
      | (.error e, ev3) =>
        ⟨some ("error retrieving slow queries: " ++ e), t2, ev0 ++ ev1 ++ ev2 ++ ev3⟩
      | (.ok slowQueries, ev3) =>
        let t3 := t2 ++ [slowQueriesRow slowQueries]
        match getBufferPoolUsage lib srv with
        | (.error e, ev4) =>
          ⟨some ("error retrieving buffer pool usage: " ++ e), t3, ev0 ++ ev1 ++ ev2 ++ ev3 ++ ev4⟩
        | (.ok bufferUsage, ev4) =>
          let t4 := t3 ++ [bufferPoolRow bufferUsage]
          match getOpenTables srv with
          | (.error e, ev5) =>
            ⟨some ("error performing open tables check: " ++ e), t4,
              ev0 ++ ev1 ++ ev2 ++ ev3 ++ ev4 ++ ev5⟩
          | (.ok openTableStatus, ev5) =>
            let t5 := t4 ++ [openTablesRow openTableStatus]
            ⟨none, t5, ev0 ++ ev1 ++ ev2 ++ ev3 ++ ev4 ++ ev5 ++ [.render healthHeader t5]⟩

/-! ## Package `security` -/

/-- Statement of `checkEmptyPasswords`. -/
def emptyPasswordsQuery : String :=
  "SELECT user, host FROM mysql.user WHERE authentication_string = '' OR authentication_string IS NULL;"

/-- Statement of `checkAdminPrivileges`. -/
def adminPrivilegesQuery : String := "SELECT user, host FROM mysql.user WHERE Super_priv = 'Y';"

/-- Statement of `checkMySQLVersion`. -/
def versionQuery : String := "SELECT @@version;"

/-- The row appended by `checkEmptyPasswords` for one offending account. -/
def emptyPasswordRow (user host : String) : Row :=
  ["Empty Passwords", "Found", user ++ "@" ++ host, "Bad", "Set strong passwords for all accounts."]

/-- The row appended by `checkEmptyPasswords` when no account offends. -/
def noEmptyPasswordRow : Row :=
  ["Empty Passwords", "None Found", "No users with empty passwords.", "Good", "No action needed."]

/-- The `rows.Next()` loop of `checkEmptyPasswords`: the error of a failed
`Scan`, the table, and the flag `usersFound`. -/
def checkEmptyPasswordsLoop :
    List (Except GoError (String × String)) → List Row → Bool → Option GoError × List Row × Bool
  | [], table, usersFound => (none, table, usersFound)
  | .error e :: _, table, usersFound => (some ("error scanning user data: " ++ e), table, usersFound)
  | .ok (user, host) :: rest, table, _ =>
    checkEmptyPasswordsLoop rest (table ++ [emptyPasswordRow user host]) true

/-- Go function `checkEmptyPasswords`: returned error, table afterwards,
effects. -/
def checkEmptyPasswords (srv : Server) (table : List Row) :
    Option GoError × List Row × List Event :=
  match srv.emptyPasswordUsers with
  | .error e =>
    (some ("error querying users with empty passwords: " ++ e), table, [.query emptyPasswordsQuery])
  | .ok rows =>
    match checkEmptyPasswordsLoop rows table false with
    | (some e, table1, _) => (some e, table1, [.query emptyPasswordsQuery])
    | (none, table1, usersFound) =>
      if !usersFound then (none, table1 ++ [noEmptyPasswordRow], [.query emptyPasswordsQuery])
      else (none, table1, [.query emptyPasswordsQuery])

/-- The row appended by `checkAdminPrivileges` for one offending account. -/
def adminRow (user host : String) : Row :=
  ["Admin Privileges", "Found", user ++ "@" ++ host, "Bad", "Minimize the number of admin accounts."]

/-- The row appended by `checkAdminPrivileges` when no account offends. -/
def noAdminRow : Row :=
  ["Admin Privileges", "None Found", "No administrator accounts found.", "Good", "No action needed."]

/-- The `rows.Next()` loop of `checkAdminPrivileges`. -/
def checkAdminPrivilegesLoop :
    List (Except GoError (String × String)) → List Row → Bool → Option GoError × List Row × Bool
  | [], table, adminsFound => (none, table, adminsFound)
  | .error e :: _, table, adminsFound =>
    (some ("error scanning admin user data: " ++ e), table, adminsFound)
  | .ok (user, host) :: rest, table, _ =>
    checkAdminPrivilegesLoop rest (table ++ [adminRow user host]) true

/-- Go function `checkAdminPrivileges`. -/
def checkAdminPrivileges (srv : Server) (table : List Row) :
    Option GoError × List Row × List Event :=
  match srv.superUsers with
  | .error e =>
    (some ("error querying users with administrative privileges: " ++ e), table,
      [.query adminPrivilegesQuery])
  | .ok rows =>
    match checkAdminPrivilegesLoop rows table false with
    | (some e, table1, _) => (some e, table1, [.query adminPrivilegesQuery])
    | (none, table1, adminsFound) =>
      if !adminsFound then (none, table1 ++ [noAdminRow], [.query adminPrivilegesQuery])
      else (none, table1, [.query adminPrivilegesQuery])

/-- UTF-8 encoding of one character, as byte values. -/
def utf8Bytes (c : Char) : List Nat :=
  let n := c.toNat
  if n < 128 then [n]
  else if n < 2048 then [192 + n / 64, 128 + n % 64]
  else if n < 65536 then [224 + n / 4096, 128 + n / 64 % 64, 128 + n % 64]
  else [240 + n / 262144, 128 + n / 4096 % 64, 128 + n / 64 % 64, 128 + n % 64]

/-- The bytes of a Go string holding the given text. -/
def goBytes (s : String) : List Nat := s.data.flatMap utf8Bytes

/-- Lexicographic order on byte sequences. -/
def bytesLess : List Nat → List Nat → Bool
  | [], [] => false
  | [], _ :: _ => true
  | _ :: _, [] => false
  | a :: as, b :: bs => if a < b then true else if b < a then false else bytesLess as bs

/-- Go operator `<` on strings: byte-wise lexicographic comparison. -/
def goStringLess (a b : String) : Bool := bytesLess (goBytes a) (goBytes b)

/-- The row appended by `checkMySQLVersion`. -/
def versionRow (version : String) : Row :=
  if goStringLess version "8.0" then
    ["MySQL Version", "Outdated", "Version: " ++ version, "Bad", "Upgrade to MySQL 8.0 or higher."]
  else
    ["MySQL Version", "Up-to-date", "Version: " ++ version, "Good", "No action needed."]

/-- Go function `checkMySQLVersion`. -/
def checkMySQLVersion (srv : Server) (table : List Row) :
    Option GoError × List Row × List Event :=
  match srv.version with
  | .error e => (some ("error retrieving MySQL version: " ++ e), table, [.query versionQuery])
  | .ok version => (none, table ++ [versionRow version], [.query versionQuery])

/-- Header of the security table. -/
def securityHeader : List String := ["Check", "Result", "Details", "Status", "Recommendation"]

/-- The cyan line printed first by `BasicSecurityCheck`. -/
def securityBanner : String := "\nRunning security checks..."

/-- Go function `security.BasicSecurityCheck`. -/
def BasicSecurityCheck (srv : Server) : GroupResult :=
  let ev0 : List Event := [.colored "cyan" securityBanner]
  match checkEmptyPasswords srv [] with
  | (some e, t1, ev1) => ⟨some e, t1, ev0 ++ ev1⟩
  | (none, t1, ev1) =>
    match checkAdminPrivileges srv t1 with
    | (some e, t2, ev2) => ⟨some e, t2, ev0 ++ ev1 ++ ev2⟩
    | (none, t2, ev2) =>
      match checkMySQLVersion srv t2 with
      | (some e, t3, ev3) => ⟨some e, t3, ev0 ++ ev1 ++ ev2 ++ ev3⟩
      | (none, t3, ev3) => ⟨none, t3, ev0 ++ ev1 ++ ev2 ++ ev3 ++ [.render securityHeader t3]⟩

/-! ## Package `performance` -/

/-- Statement of `checkIndexUsage`. -/
def indexUsageQuery : String :=
  "\n" ++
    "\tSELECT \n" ++
    "\t    t.table_schema,\n" ++
    "\t    t.table_name,\n" ++
    "\t    t.table_rows,\n" ++
    "\t    ps.index_size,\n" ++
    "\t    ps.data_size,\n" ++
    "\t    ps.total_size\n" ++
    "\tFROM \n" ++
    "\t    information_schema.tables t\n" ++
    "\tJOIN (\n" ++
    "\t    SELECT \n" ++
    "\t        table_schema,\n" ++
    "\t        table_name,\n" ++
    "\t        SUM(data_length) data_size,\n" ++
    "\t        SUM(index_length) index_size,\n" ++
    "\t        SUM(data_length + index_length) total_size\n" ++
    "\t    FROM \n" ++
    "\t        information_schema.tables \n" ++
    "\t    GROUP BY \n" ++
    "\t        table_schema, \n" ++
    "\t        table_name\n" ++
    "\t) ps ON t.table_schema = ps.table_schema AND t.table_name = ps.table_name\n" ++
    "\tWHERE \n" ++
    "\t    t.table_schema NOT IN ('information_schema', 'mysql', 'performance_schema', 'sys')\n" ++
    "\t    AND t.table_rows > 10000\n" ++
    "\t    AND ps.index_size = 0;"

/-- The text of the `detail` built by `checkIndexUsage` for one row. -/
def indexDetail (r : IndexRow) : String :=
  r.schema ++ "." ++ r.tableName ++ ": " ++ toString r.tableRows ++ " rows, Data Size: " ++
    toString r.dataSize ++ ", Index Size: " ++ toString r.indexSize ++ ", Total Size: " ++
    toString r.totalSize

/-- The `rows.Next()` loop of `checkIndexUsage`, with its counter `count`
(incremented before the `Scan`). -/
def checkIndexUsageLoop :
    List (Except GoError IndexRow) → List Row → Nat → Option GoError × List Row × Nat
  | [], table, count => (none, table, count)
  | .error e :: _, table, count => (some ("error scanning table data: " ++ e), table, count + 1)
  | .ok r :: rest, table, count =>
    checkIndexUsageLoop rest (table ++ [["Table Index Check", "FAILED", indexDetail r]]) (count + 1)

/-- Go function `checkIndexUsage`. -/
def checkIndexUsage (srv : Server) (table : List Row) : Option GoError × List Row × List Event :=
  match srv.unindexedTables with
  | .error e =>
    (some ("error querying database for index usage: " ++ e), table, [.query indexUsageQuery])
  | .ok rows =>
    match checkIndexUsageLoop rows table 0 with
    | (some e, table1, _) => (some e, table1, [.query indexUsageQuery])
    | (none, table1, count) =>
      if count = 0 then
        (none,
          table1 ++ [["Table Index Check", "PASSED", "All tables with significant data are indexed."]],
          [.query indexUsageQuery])
      else (none, table1, [.query indexUsageQuery])

/-- Header of the performance table. -/
def performanceHeader : List String := ["Check", "Status", "Details"]

/-- The cyan line printed first by `BasicPerformanceCheck`. -/
def performanceBanner : String := "\nRunning performance checks..."

/-- Go function `performance.BasicPerformanceCheck`. -/
def BasicPerformanceCheck (srv : Server) : GroupResult :=
  let ev0 : List Event := [.colored "cyan" performanceBanner]
  match checkIndexUsage srv [] with
  | (some e, t1, ev1) =>
    let t2 := t1 ++ [["Index Usage", "FAILED", "Error: " ++ e]]
    ⟨none, t2,
      ev0 ++ ev1 ++ [.logged ("Error during index usage check: " ++ e), .render performanceHeader t2]⟩
  | (none, t1, ev1) =>
    let t2 := t1 ++ [["Index Usage", "PASSED", "All major queries are using indexes appropriately."]]
    ⟨none, t2, ev0 ++ ev1 ++ [.render performanceHeader t2]⟩

/-! ## `executeSniff` (package `main`) -/

/-- The line printed by `printSeparator`: eighty `=` signs, in blue. -/
def separator : Event :=
  .colored "blue" (String.mk (List.replicate 80 '='))

/-- The closing message of `executeSniff`. -/
def closingMessage : String :=
  "\nAll checks completed successfully but for more details please check their respective tables, this is where you will find the nuggets.\n"

/-- What `executeSniff` prints for the error a group returned. -/
def reportFailure (label : String) (err : Option GoError) : List Event :=
  match err with
  | some e => [.stdout (label ++ " checks failed: " ++ e ++ "\n")]
  | none => []

/-- Go function `executeSniff`: the effects of one run against `srv` with the
stored configuration `cfg`.  A run ended by `log.Fatalf` stops at the `fatal`
event (deferred calls do not run on `os.Exit`). -/
def executeSniff (lib : Lib) (srv : Server) (cfg : DBConfig) : List Event :=
  match ConnectDatabase srv cfg with
  | (.error e, ev) => ev ++ [.stdout ("Error connecting to the database: " ++ e ++ "\n")]
  | (.ok (), ev) =>
    let pre := ev ++ [.stdout "Successfully connected to the database.\n"]
    match displayDatabaseInfo srv with
    | (true, evd) => pre ++ evd
    | (false, evd) =>
      let h := CheckDatabaseUptime lib srv
      let s := BasicSecurityCheck srv
      let p := BasicPerformanceCheck srv
      pre ++ evd ++
        [separator] ++ h.events ++ reportFailure "Health" h.err ++
        [separator] ++ s.events ++ reportFailure "Security" s.err ++
        [separator] ++ p.events ++ reportFailure "Performance" p.err ++
        [.setColor "hi-yellow bold", .stdout closingMessage, .unsetColor, .dbClose]

/-! ## Sample inputs -/

/-- Library operations used when a property is evaluated on a concrete
server. -/
def sampleLib : Lib where
  fmtDuration := fun n => toString n ++ "s"
  fdiv := fun a b => a / b
  fmul := fun a b => a * b
  fmtFixed2 := fun q => toString q

/-- A healthy server with two tables. -/
def sampleServer : Server where
  openErr := none
  pingErr := none
  showTables := .ok [.ok "users", .ok "orders"]
  describe := fun t =>
    if t = "users" then
      .ok [.ok ⟨"id", "int", "NO", "PRI", ⟨"", false⟩, "auto_increment"⟩,
        .ok ⟨"name", "varchar(64)", "YES", "", ⟨"", false⟩, ""⟩]
    else .ok [.ok ⟨"id", "int", "NO", "PRI", ⟨"", false⟩, ""⟩]
  uptime := .ok 3600
  threadsConnected := .ok 3
  slowQueries := .ok 7
  bufferPool := .ok [.ok ("Innodb_buffer_pool_pages_data", 50),
    .ok ("Innodb_buffer_pool_pages_total", 200)]
  openTables := .ok 81
  tableOpenCache := .ok 100
  emptyPasswordUsers := .ok []
  superUsers := .ok [.ok ("root", "localhost")]
  version := .ok "8.0.36"
  unindexedTables := .ok []

/-- The sample server reporting a very large table cache. -/
def largeCacheServer : Server :=
  { sampleServer with openTables := .ok 2400000000000001, tableOpenCache := .ok 3000000000000001 }

/-- One account of the table `mysql.user`, as far as the statements of the
security probes read it (`none` is SQL `NULL`). -/
structure MySQLUser where
  user : String
  host : String
  authentication_string : Option String
  deriving DecidableEq, Repr

/-- The server's answer to the statement of `checkEmptyPasswords`: the
`user, host` of every account whose `authentication_string` is `''` or `NULL`. -/
def selectEmptyPasswordUsers (users : List MySQLUser) : List (String × String) :=
  (users.filter fun u => u.authentication_string = some "" ∨ u.authentication_string = none).map
    fun u => (u.user, u.host)

/-- The fixture accounts `a` (empty password) and `b` (password `x`). -/
def fixtureUsers : List MySQLUser := [⟨"a", "%", some ""⟩, ⟨"b", "%", some "x"⟩]

/-- The sample server holding the fixture accounts. -/
def fixtureServer : Server :=
  { sampleServer with
    emptyPasswordUsers := Except.ok ((selectEmptyPasswordUsers fixtureUsers).map Except.ok) }

/-- Number of rows of a table whose column `col` holds `status`. -/
def countStatus (col : Nat) (status : String) (table : List Row) : Nat :=
  (table.filter fun row => row.get? col = some status).length

/-- The last value of a list of decoded status rows, `d` when it has none. -/
def lastOr (d : ℚ) (l : List (String × ℚ)) : ℚ :=
  match l.getLast? with
  | some nv => nv.2
  | none => d

/-- The value a buffer-pool reply reports for the status variable `name`: that
of its last row carrying this name, `0` when no row does. -/
def reportedValue (name : String) (vals : List (String × ℚ)) : ℚ :=
  lastOr 0 (vals.filter fun nv => nv.1 = name)

/-- The total page count reported by a buffer-pool reply. -/
def reportedTotal (vals : List (String × ℚ)) : ℚ :=
  reportedValue "Innodb_buffer_pool_pages_total" vals

/-- The used (data) page count reported by a buffer-pool reply. -/
def reportedUsed (vals : List (String × ℚ)) : ℚ :=
  reportedValue "Innodb_buffer_pool_pages_data" vals

/-- The sample server with one large table that has no index. -/
def unindexedServer : Server :=
  { sampleServer with
    unindexedTables := Except.ok [Except.ok ⟨"shop", "orders", 50000, 0, 1048576, 1048576⟩] }

/-! ## Vocabulary of the properties -/

/-- A `Scan` (or a `QueryRow(...).Scan`) that returns an error. -/
def decodeFails {α : Type} : Except GoError α → Bool
  | .error _ => true
  | .ok _ => false

/-- A statement whose `db.Query` fails or one of whose rows fails to decode. -/
def rowsFail {α : Type} (r : Rows α) : Bool :=
  match r with
  | .error _ => true
  | .ok rows => rows.any decodeFails

/-- Position of the first `true` in a list of failure flags (its length when
there is none). -/
def firstFailure : List Bool → Nat
  | [] => 0
  | true :: _ => 0
  | false :: rest => firstFailure rest + 1

/-- The statements of the health group, in the order the group sends them. -/
def healthQueries : List String :=
  [uptimeQuery, threadsQuery, slowQueriesQuery, bufferPoolQuery, openTablesQuery,
    tableOpenCacheQuery]

/-- For each statement of the health group, whether it fails on `srv`. -/
def healthFailures (srv : Server) : List Bool :=
  [decodeFails srv.uptime, decodeFails srv.threadsConnected, decodeFails srv.slowQueries,
    rowsFail srv.bufferPool, decodeFails srv.openTables, decodeFails srv.tableOpenCache]

/-- The statements of the security group, in the order the group sends them. -/
def securityQueries : List String := [emptyPasswordsQuery, adminPrivilegesQuery, versionQuery]

/-- For each statement of the security group, whether it fails on `srv`. -/
def securityFailures (srv : Server) : List Bool :=
  [rowsFail srv.emptyPasswordUsers, rowsFail srv.superUsers, decodeFails srv.version]

/-- The group returned an error after sending exactly the statements `qs`, and
rendered nothing. -/
def abortedAfter (r : GroupResult) (qs : List String) : Prop :=
  r.err.isSome = true ∧ queriesOf r.events = qs ∧ rendersOf r.events = []

instance (r : GroupResult) (qs : List String) : Decidable (abortedAfter r qs) := by
  unfold abortedAfter
  infer_instance

/-- The group returned `nil` after sending exactly the statements `qs`, and
rendered its table once, at the end. -/
def completedAfter (header : List String) (r : GroupResult) (qs : List String) : Prop :=
  r.err = none ∧ queriesOf r.events = qs ∧ rendersOf r.events = [(header, r.table)]

instance (header : List String) (r : GroupResult) (qs : List String) :
    Decidable (completedAfter header r qs) := by
  unfold completedAfter
  infer_instance

/-- The sample server whose slow-query counter cannot be read. -/
def slowQueriesDownServer : Server :=
  { sampleServer with slowQueries := Except.error "connection reset" }

/-- The sample server on which the statement of `checkIndexUsage` fails. -/
def indexQueryDownServer : Server :=
  { sampleServer with unindexedTables := Except.error "access denied" }

/-- The sample server refusing the liveness check. -/
def pingDownServer : Server :=
  { sampleServer with pingErr := some "connection refused" }

/-- A configuration for the sample servers. -/
def sampleConfig : DBConfig := ⟨"localhost", 3306, "root", "secret", "mydatabase"⟩

/-- The sample server on which `DESCRIBE orders` fails. -/
def describeDownServer : Server :=
  { sampleServer with
    describe := fun t =>
      if t = "orders" then Except.error "table is corrupt" else sampleServer.describe t }

/-! # Properties -/

theorem excessBitsAux_spec (fuel N s : Nat) :
    excessBitsAux fuel N s = s ∨
      (s < excessBitsAux fuel N s ∧ 2 ^ 53 ≤ N / 2 ^ (excessBitsAux fuel N s - 1)) := by
  induction fuel generalizing s with
  | zero => left; rfl
  | succ k ih =>
    unfold excessBitsAux
    by_cases h : N / 2 ^ s < 2 ^ 53
    · left; rw [if_pos h]
    · right
      rw [if_neg h]
      rcases ih (s + 1) with h1 | ⟨h1, h2⟩
      · rw [h1]
        refine ⟨Nat.lt_succ_self s, ?_⟩
        simpa using Nat.le_of_not_lt h
      · exact ⟨Nat.lt_trans (Nat.lt_succ_self s) h1, h2⟩

theorem excessBits_le_of_lt (N k : Nat) (h : N < 2 ^ (53 + k)) : excessBits N ≤ k := by
  unfold excessBits
  rcases excessBitsAux_spec N N 0 with h0 | ⟨h1, h2⟩
  · omega
  · by_contra hk
    have hk2 : k ≤ excessBitsAux N N 0 - 1 := by omega
    have h3 : 2 ^ 53 * 2 ^ (excessBitsAux N N 0 - 1) ≤ N :=
      (Nat.le_div_iff_mul_le (Nat.pos_pow_of_pos _ (by decide))).1 h2
    have h4 : 2 ^ (53 + k) ≤ 2 ^ 53 * 2 ^ (excessBitsAux N N 0 - 1) := by
      rw [pow_add]
      exact Nat.mul_le_mul_left _ (Nat.pow_le_pow_right (by decide) hk2)
    omega

theorem round53_lower (N : Nat) : N / 2 ^ excessBits N * 2 ^ excessBits N ≤ round53 N := by
  unfold round53
  simp only
  split
  · exact Nat.mul_le_mul_right _ (Nat.le_succ _)
  · exact Nat.le_refl _

theorem round53_upper (N : Nat) : 2 * round53 N ≤ 2 * N + 2 ^ excessBits N := by
  unfold round53
  simp only
  have hN := Nat.div_add_mod N (2 ^ excessBits N)
  generalize 2 ^ excessBits N = p at *
  generalize hm : N / p = m at *
  generalize hr : N % p = r at *
  have hmp : p * m = m * p := Nat.mul_comm _ _
  split
  · rename_i hc
    have : (m + 1) * p = m * p + p := by ring
    rcases hc with hc | ⟨hc, _⟩ <;> omega
  · omega

theorem round53_of_lt (n : Nat) (h : n < 2 ^ 53) : round53 n = n := by
  have hs : excessBits n = 0 := Nat.le_zero.1 (excessBits_le_of_lt n 0 h)
  unfold round53
  simp [hs, Nat.mod_one]

/-- Below `2^50` the binary64 computation `int(0.8*float64(n))` is exactly
`⌊4n/5⌋`. -/
theorem truncEightTenthsNat_exact (n : Nat) (h : n < 2 ^ 50) :
    truncEightTenthsNat n = 4 * n / 5 := by
  unfold truncEightTenthsNat
  rw [round53_of_lt n (by
    have : (2 : Nat) ^ 50 ≤ 2 ^ 53 := Nat.pow_le_pow_right (by decide) (by decide)
    omega)]
  have hC : eightTenthsNum = 3602879701896397 := rfl
  have hNlt : eightTenthsNum * n < 2 ^ (53 + 49) := by
    rw [hC]; norm_num at h ⊢; omega
  have hs := excessBits_le_of_lt _ 49 hNlt
  have hlo := round53_lower (eightTenthsNum * n)
  have hup := round53_upper (eightTenthsNum * n)
  generalize round53 (eightTenthsNum * n) = R at *
  generalize hsd : excessBits (eightTenthsNum * n) = s at *
  have hp49 : 2 ^ s ≤ 2 ^ 49 := Nat.pow_le_pow_right (by decide) hs
  have hq := Nat.div_add_mod (4 * n) 5
  have hr := Nat.mod_lt (4 * n) (show 0 < 5 by decide)
  generalize 4 * n / 5 = q at *
  generalize 4 * n % 5 = r at *
  -- the exact product dominates q * 2^52, a multiple of 2^s
  have hsplit : q * 2 ^ 52 = (q * 2 ^ (52 - s)) * 2 ^ s := by
    rw [Nat.mul_assoc, ← pow_add]
    congr 2
    omega
  have hNq : q * 2 ^ 52 ≤ eightTenthsNum * n := by
    rw [hC]; norm_num; omega
  have hfloor : q * 2 ^ (52 - s) ≤ eightTenthsNum * n / 2 ^ s := by
    rw [Nat.le_div_iff_mul_le (Nat.pos_pow_of_pos _ (by decide)), ← hsplit]
    exact hNq
  have hlow : q * 2 ^ 52 ≤ R := by
    rw [hsplit]
    exact Nat.le_trans (Nat.mul_le_mul_right _ hfloor) hlo
  have hhigh : R < (q + 1) * 2 ^ 52 := by
    rw [hC] at hup
    norm_num at hp49 h ⊢
    omega
  apply Nat.div_eq_of_lt_le
  · exact hlow
  · exact hhigh

theorem warningStatus_ne_normalStatus (o c o2 c2 : Int) : warningStatus o c ≠ normalStatus o2 c2 := by
  intro h
  have hd := congrArg (fun s => s.data.head?) h
  simp [warningStatus, normalStatus, String.data_append] at hd

theorem truncEightTenths_exact (c : Int) (h0 : 0 ≤ c) (hb : c < 2 ^ 50) :
    truncEightTenths c = 4 * c / 5 := by
  unfold truncEightTenths
  rw [if_pos h0]
  have hn : c.toNat < 2 ^ 50 := by
    have : ((2 : Int) ^ 50) = ((2 ^ 50 : Nat) : Int) := by norm_num
    omega
  rw [truncEightTenthsNat_exact _ hn]
  omega

theorem openTablesStatus_eq (o c : Int) (h0 : 0 ≤ c) (hb : c < 2 ^ 50) :
    openTablesStatus o c = if 4 * c < 5 * o then warningStatus o c else normalStatus o c := by
  unfold openTablesStatus
  rw [truncEightTenths_exact c h0 hb]
  by_cases h : 4 * c < 5 * o
  · rw [if_pos h, if_pos (by omega)]
  · rw [if_neg h, if_neg (by omega)]

/-- C2 (as amended): for every open count and every cache limit `0 ≤ cache < 2^50`
read by `getOpenTables`, the status is the Warning text exactly when
`5·open > 4·cache` and the Normal text otherwise; in particular 81 of 100 is
Warning, 79 and 80 of 100 are Normal. -/
theorem getOpenTables_status_iff (srv : Server) (o c : Int)
    (ho : srv.openTables = .ok o) (hc : srv.tableOpenCache = .ok c)
    (h0 : 0 ≤ c) (hb : c < 2 ^ 50) :
    ((getOpenTables srv).1 = .ok (warningStatus o c) ↔ 4 * c < 5 * o) ∧
    ((getOpenTables srv).1 = .ok (normalStatus o c) ↔ ¬ 4 * c < 5 * o) ∧
    openTablesStatus 81 100 = warningStatus 81 100 ∧
    openTablesStatus 79 100 = normalStatus 79 100 ∧
    openTablesStatus 80 100 = normalStatus 80 100 := by
  have hres : (getOpenTables srv).1 = .ok (openTablesStatus o c) := by
    unfold getOpenTables
    rw [ho, hc]
  rw [hres, openTablesStatus_eq o c h0 hb]
  refine ⟨?_, ?_, ?_, ?_, ?_⟩
  · by_cases h : 4 * c < 5 * o
    · simp [h]
    · simp only [h, if_false, iff_false]
      intro hk
      exact warningStatus_ne_normalStatus o c o c (Except.ok.inj hk).symm
  · by_cases h : 4 * c < 5 * o
    · simp only [h, if_true, not_true, iff_false]
      intro hk
      exact warningStatus_ne_normalStatus o c o c (Except.ok.inj hk)
    · simp [h]
  · rw [openTablesStatus_eq 81 100 (by decide) (by decide)]; rfl
  · rw [openTablesStatus_eq 79 100 (by decide) (by decide)]; rfl
  · rw [openTablesStatus_eq 80 100 (by decide) (by decide)]; rfl

/-- Witness for C2: the sample server reports 81 open tables of 100. -/
theorem getOpenTables_status_iff_witness :
    (0 : Int) ≤ 100 ∧ (100 : Int) < 2 ^ 50 ∧
    ((getOpenTables sampleServer).1 = .ok (warningStatus 81 100) ↔ 4 * (100 : Int) < 5 * 81) :=
  ⟨by decide, by decide,
    (getOpenTables_status_iff sampleServer 81 100 rfl rfl (by decide) (by decide)).1⟩

/-- Counterexample to C2 as stated: with 2400000000000001 open tables of a
cache of 3000000000000001, `5·open > 4·cache` holds, yet binary64 rounding puts
the threshold at 2400000000000001 and the status is the Normal text. -/
theorem getOpenTables_large_cache_normal :
    (0 : Int) ≤ 2400000000000001 ∧ (0 : Int) ≤ 3000000000000001 ∧
    4 * (3000000000000001 : Int) < 5 * 2400000000000001 ∧
    (getOpenTables largeCacheServer).1 =
      .ok (normalStatus 2400000000000001 3000000000000001) ∧
    (getOpenTables largeCacheServer).1 ≠
      .ok (warningStatus 2400000000000001 3000000000000001) := by
  have hres : (getOpenTables largeCacheServer).1 =
      .ok (normalStatus 2400000000000001 3000000000000001) := by
    have ht : truncEightTenths 3000000000000001 = 2400000000000001 := by decide
    show (Except.ok (openTablesStatus 2400000000000001 3000000000000001) : Except GoError String) = _
    unfold openTablesStatus
    rw [ht, if_neg (by decide)]
  refine ⟨by decide, by decide, by decide, hres, ?_⟩
  rw [hres]
  intro hk
  exact warningStatus_ne_normalStatus _ _ _ _ (Except.ok.inj hk).symm

/-- C3: for every version string `v` the server reports, `checkMySQLVersion`
returns no error and appends exactly one row; its status is `Bad` (result
`Outdated`, upgrade recommendation) exactly when `v` is byte-wise less than
`"8.0"` and `Good` otherwise; `"5.7"` and `"10.0"` are `Bad`, `"8.0"` is `Good`. -/
theorem checkMySQLVersion_status (srv : Server) (table : List Row) (v : String)
    (hv : srv.version = .ok v) :
    (checkMySQLVersion srv table).1 = none ∧
    (∃ row, (checkMySQLVersion srv table).2.1 = table ++ [row] ∧
      (row.get? 3 = some "Bad" ↔ goStringLess v "8.0" = true) ∧
      (row.get? 3 = some "Good" ↔ goStringLess v "8.0" = false) ∧
      (goStringLess v "8.0" = true →
        row = ["MySQL Version", "Outdated", "Version: " ++ v, "Bad",
          "Upgrade to MySQL 8.0 or higher."]) ∧
      (goStringLess v "8.0" = false →
        row = ["MySQL Version", "Up-to-date", "Version: " ++ v, "Good", "No action needed."])) ∧
    (versionRow "5.7").get? 3 = some "Bad" ∧
    (versionRow "8.0").get? 3 = some "Good" ∧
    (versionRow "10.0").get? 3 = some "Bad" ∧
    goStringLess "10.0" "8.0" = true := by
  refine ⟨?_, ⟨versionRow v, ?_, ?_, ?_, ?_, ?_⟩, by decide, by decide, by decide, by decide⟩
  · unfold checkMySQLVersion; rw [hv]
  · unfold checkMySQLVersion; rw [hv]
  · unfold versionRow
    cases h : goStringLess v "8.0" <;> simp
  · unfold versionRow
    cases h : goStringLess v "8.0" <;> simp
  · intro h; unfold versionRow; rw [if_pos h]
  · intro h; unfold versionRow; rw [h]; rfl

/-- Witness for C3: the sample server reports version `8.0.36`. -/
theorem checkMySQLVersion_status_witness :
    sampleServer.version = .ok "8.0.36" ∧ (checkMySQLVersion sampleServer []).1 = none :=
  ⟨rfl, (checkMySQLVersion_status sampleServer [] "8.0.36" rfl).1⟩

theorem checkEmptyPasswordsLoop_ok (pairs : List (String × String)) (table : List Row) (b : Bool) :
    checkEmptyPasswordsLoop (pairs.map Except.ok) table b =
      (none, table ++ pairs.map (fun p => emptyPasswordRow p.1 p.2), b || !pairs.isEmpty) := by
  induction pairs generalizing table b with
  | nil => simp [checkEmptyPasswordsLoop]
  | cons p rest ih =>
    obtain ⟨user, host⟩ := p
    simp [checkEmptyPasswordsLoop, ih]

theorem checkAdminPrivilegesLoop_ok (pairs : List (String × String)) (table : List Row) (b : Bool) :
    checkAdminPrivilegesLoop (pairs.map Except.ok) table b =
      (none, table ++ pairs.map (fun p => adminRow p.1 p.2), b || !pairs.isEmpty) := by
  induction pairs generalizing table b with
  | nil => simp [checkAdminPrivilegesLoop]
  | cons p rest ih =>
    obtain ⟨user, host⟩ := p
    simp [checkAdminPrivilegesLoop, ih]

/-- C5: when the statement of `checkEmptyPasswords` (resp. `checkAdminPrivileges`)
returns the pairs `pairs`, the probe returns no error and appends, if there is
at least one pair, exactly one `Bad` row per pair, in order, with details
`user@host` and the remediation remark, and no `Good` row; if there is none it
appends exactly one `Good` row.  On the fixture accounts the empty-password
probe appends exactly the row of `a@%`. -/
theorem security_list_probes (srv : Server) (table : List Row) (pairs : List (String × String)) :
    (srv.emptyPasswordUsers = .ok (pairs.map Except.ok) →
      (checkEmptyPasswords srv table).1 = none ∧
      (pairs ≠ [] → (checkEmptyPasswords srv table).2.1 = table ++ pairs.map (fun p =>
        ["Empty Passwords", "Found", p.1 ++ "@" ++ p.2, "Bad",
          "Set strong passwords for all accounts."])) ∧
      (pairs = [] → (checkEmptyPasswords srv table).2.1 = table ++
        [["Empty Passwords", "None Found", "No users with empty passwords.", "Good",
          "No action needed."]])) ∧
    (srv.superUsers = .ok (pairs.map Except.ok) →
      (checkAdminPrivileges srv table).1 = none ∧
      (pairs ≠ [] → (checkAdminPrivileges srv table).2.1 = table ++ pairs.map (fun p =>
        ["Admin Privileges", "Found", p.1 ++ "@" ++ p.2, "Bad",
          "Minimize the number of admin accounts."])) ∧
      (pairs = [] → (checkAdminPrivileges srv table).2.1 = table ++
        [["Admin Privileges", "None Found", "No administrator accounts found.", "Good",
          "No action needed."]])) ∧
    selectEmptyPasswordUsers fixtureUsers = [("a", "%")] ∧
    (checkEmptyPasswords fixtureServer []).2.1 =
      [["Empty Passwords", "Found", "a@%", "Bad", "Set strong passwords for all accounts."]] := by
  refine ⟨?_, ?_, by decide, by decide⟩
  · intro h
    simp only [checkEmptyPasswords, h, checkEmptyPasswordsLoop_ok]
    cases pairs with
    | nil => simp [noEmptyPasswordRow]
    | cons p rest => simp [emptyPasswordRow]
  · intro h
    simp only [checkAdminPrivileges, h, checkAdminPrivilegesLoop_ok]
    cases pairs with
    | nil => simp [noAdminRow]
    | cons p rest => simp [adminRow]

/-- Witness for C5: the sample server has no empty-password account and one
administrator, `root@localhost`. -/
theorem security_list_probes_witness :
    sampleServer.superUsers = .ok ([("root", "localhost")].map Except.ok) ∧
    (checkAdminPrivileges sampleServer []).2.1 =
      [] ++ [("root", "localhost")].map (fun p =>
        ["Admin Privileges", "Found", p.1 ++ "@" ++ p.2, "Bad",
          "Minimize the number of admin accounts."]) :=
  ⟨rfl, ((security_list_probes sampleServer [] [("root", "localhost")]).2.1 rfl).2.1 (by decide)⟩

/-- C1 (as amended): when the statement of `checkIndexUsage` returns exactly one
table, `BasicPerformanceCheck` emits exactly one `FAILED` row, whose details
start with `schema.table` of that table, followed by the group row
`Index Usage`/`PASSED`; when the statement returns no row it emits two `PASSED`
rows (`Table Index Check`, appended by `checkIndexUsage`, and `Index Usage`,
appended by the group) and no `FAILED` row. -/
theorem performance_rows (srv : Server) :
    (∀ r : IndexRow, srv.unindexedTables = .ok [.ok r] →
      (BasicPerformanceCheck srv).table =
        [["Table Index Check", "FAILED", indexDetail r],
          ["Index Usage", "PASSED", "All major queries are using indexes appropriately."]] ∧
      countStatus 1 "FAILED" (BasicPerformanceCheck srv).table = 1 ∧
      countStatus 1 "PASSED" (BasicPerformanceCheck srv).table = 1 ∧
      indexDetail r = r.schema ++ "." ++ r.tableName ++ ": " ++ toString r.tableRows ++
        " rows, Data Size: " ++ toString r.dataSize ++ ", Index Size: " ++
        toString r.indexSize ++ ", Total Size: " ++ toString r.totalSize) ∧
    (srv.unindexedTables = .ok [] →
      (BasicPerformanceCheck srv).table =
        [["Table Index Check", "PASSED", "All tables with significant data are indexed."],
          ["Index Usage", "PASSED", "All major queries are using indexes appropriately."]] ∧
      countStatus 1 "PASSED" (BasicPerformanceCheck srv).table = 2 ∧
      countStatus 1 "FAILED" (BasicPerformanceCheck srv).table = 0) := by
  constructor
  · intro r h
    have ht : (BasicPerformanceCheck srv).table =
        [["Table Index Check", "FAILED", indexDetail r],
          ["Index Usage", "PASSED", "All major queries are using indexes appropriately."]] := by
      simp [BasicPerformanceCheck, checkIndexUsage, h, checkIndexUsageLoop]
    rw [ht]
    refine ⟨rfl, ?_, ?_, rfl⟩
    · simp [countStatus]
    · simp [countStatus]
  · intro h
    have ht : (BasicPerformanceCheck srv).table =
        [["Table Index Check", "PASSED", "All tables with significant data are indexed."],
          ["Index Usage", "PASSED", "All major queries are using indexes appropriately."]] := by
      simp [BasicPerformanceCheck, checkIndexUsage, h, checkIndexUsageLoop]
    rw [ht]
    refine ⟨rfl, ?_, ?_⟩
    · simp [countStatus]
    · simp [countStatus]

/-- Witness for C1: the server with the unindexed table `shop.orders`. -/
theorem performance_rows_witness :
    unindexedServer.unindexedTables =
      .ok [.ok ⟨"shop", "orders", 50000, 0, 1048576, 1048576⟩] ∧
    countStatus 1 "FAILED" (BasicPerformanceCheck unindexedServer).table = 1 :=
  ⟨rfl, ((performance_rows unindexedServer).1 _ rfl).2.1⟩

/-- Counterexample to C1 as stated: on the fully indexed sample server the
statement returns no row and the group emits two `PASSED` rows, not one. -/
theorem performance_two_passed_rows :
    sampleServer.unindexedTables = .ok [] ∧
    (BasicPerformanceCheck sampleServer).table =
      [["Table Index Check", "PASSED", "All tables with significant data are indexed."],
        ["Index Usage", "PASSED", "All major queries are using indexes appropriately."]] ∧
    countStatus 1 "PASSED" (BasicPerformanceCheck sampleServer).table ≠ 1 := by
  refine ⟨rfl, by decide, by decide⟩

theorem usageText_ne_na (lib : Lib) (used total : ℚ) : usageText lib used total ≠ "N/A" := by
  intro h
  have hd := congrArg (fun s => s.data.getLast?) h
  simp [usageText, String.data_append] at hd

theorem lastOr_cons (d : ℚ) (a : String × ℚ) (l : List (String × ℚ)) :
    lastOr d (a :: l) = lastOr a.2 l := by
  cases l with
  | nil => simp [lastOr]
  | cons b rest => simp [lastOr, List.getLast?_cons]

theorem bufferPoolLoop_reported (vals : List (String × ℚ)) (t u : ℚ) :
    bufferPoolLoop (vals.map Except.ok) t u =
      .ok (lastOr t (vals.filter fun nv => nv.1 = "Innodb_buffer_pool_pages_total"),
        lastOr u (vals.filter fun nv => nv.1 = "Innodb_buffer_pool_pages_data")) := by
  induction vals generalizing t u with
  | nil => simp [bufferPoolLoop, lastOr]
  | cons nv rest ih =>
    obtain ⟨name, value⟩ := nv
    simp only [List.map_cons]
    unfold bufferPoolLoop
    by_cases h1 : name = "Innodb_buffer_pool_pages_total"
    · have h2 : name ≠ "Innodb_buffer_pool_pages_data" := by
        rw [h1]; decide
      rw [if_pos h1, ih]
      simp [List.filter_cons, h1, h2, lastOr_cons]
    · rw [if_neg h1]
      by_cases h2 : name = "Innodb_buffer_pool_pages_data"
      · rw [if_pos h2, ih]
        simp [List.filter_cons, h1, h2, lastOr_cons]
      · rw [if_neg h2, ih]
        simp [List.filter_cons, h1, h2]

/-- C4: when the buffer-pool statement succeeds and its rows decode to `vals`,
with `total` and `used` the page counts this reply reports (the last row of
each name, `0` when none): if `total = 0` (in particular when the reply has no
total row) `getBufferPoolUsage` returns `"N/A"` without error whatever the
division does, and the health row has status `Warning`; if `total ≠ 0` it
returns the percentage text of `used / total × 100` and the row has status
`OK`.  The status of the row is `Warning` exactly when `total = 0`. -/
theorem bufferPool_status (lib : Lib) (srv : Server) (vals : List (String × ℚ))
    (hq : srv.bufferPool = .ok (vals.map Except.ok)) :
    ((∀ v : ℚ, ("Innodb_buffer_pool_pages_total", v) ∉ vals) → reportedTotal vals = 0) ∧
    (reportedTotal vals = 0 → ∀ lib2 : Lib, (getBufferPoolUsage lib2 srv).1 = .ok "N/A") ∧
    (reportedTotal vals ≠ 0 → (getBufferPoolUsage lib srv).1 =
      .ok (lib.fmtFixed2 (lib.fmul (lib.fdiv (reportedUsed vals) (reportedTotal vals)) 100)
        ++ "%")) ∧
    (∀ u a s : Int, srv.uptime = .ok u → srv.threadsConnected = .ok a → srv.slowQueries = .ok s →
      ∃ value status,
        (CheckDatabaseUptime lib srv).table.get? 3 =
          some ["Buffer Pool Usage", value, status, "Percentage of buffer pool used"] ∧
        (getBufferPoolUsage lib srv).1 = .ok value ∧
        (reportedTotal vals = 0 → value = "N/A" ∧ status = "Warning") ∧
        (reportedTotal vals ≠ 0 →
          value = lib.fmtFixed2
            (lib.fmul (lib.fdiv (reportedUsed vals) (reportedTotal vals)) 100) ++ "%" ∧
          status = "OK") ∧
        (status = "Warning" ↔ reportedTotal vals = 0)) ∧
    reportedTotal [("Innodb_buffer_pool_pages_data", 50),
      ("Innodb_buffer_pool_pages_total", 200)] = 200 ∧
    reportedUsed [("Innodb_buffer_pool_pages_data", 50),
      ("Innodb_buffer_pool_pages_total", 200)] = 50 := by
  have hl : bufferPoolLoop (vals.map Except.ok) 0 0 =
      .ok (reportedTotal vals, reportedUsed vals) := bufferPoolLoop_reported vals 0 0
  have hna : reportedTotal vals = 0 →
      ∀ lib2 : Lib, (getBufferPoolUsage lib2 srv).1 = .ok "N/A" := by
    intro h0 lib2
    simp [getBufferPoolUsage, hq, hl, h0]
  have hpc : reportedTotal vals ≠ 0 → (getBufferPoolUsage lib srv).1 =
      .ok (usageText lib (reportedUsed vals) (reportedTotal vals)) := by
    intro h0
    simp [getBufferPoolUsage, hq, hl, h0]
  refine ⟨?_, hna, hpc, ?_, ?_, ?_⟩
  · intro hn
    have hf : (vals.filter fun nv => nv.1 = "Innodb_buffer_pool_pages_total") = [] := by
      rw [List.filter_eq_nil_iff]
      intro nv hmem hname
      obtain ⟨name, value⟩ := nv
      simp only [decide_eq_true_eq] at hname
      subst hname
      exact hn value hmem
    simp [reportedTotal, reportedValue, hf, lastOr]
  · intro u a s hu ha hs
    by_cases h0 : reportedTotal vals = 0
    · refine ⟨"N/A", "Warning", ?_, hna h0 lib, fun _ => ⟨rfl, rfl⟩, fun h => absurd h0 h,
        by simp [h0]⟩
      have hb : getBufferPoolUsage lib srv = (.ok "N/A", [.query bufferPoolQuery]) := by
        simp [getBufferPoolUsage, hq, hl, h0]
      simp only [CheckDatabaseUptime, getUptime, getActiveConnections, getSlowQueries, hu, ha, hs,
        hb]
      split <;> simp [bufferPoolRow]
    · refine ⟨usageText lib (reportedUsed vals) (reportedTotal vals), "OK", ?_, hpc h0,
        fun h => absurd h h0, fun _ => ⟨rfl, rfl⟩, by simp [h0]⟩
      have hb : getBufferPoolUsage lib srv =
          (.ok (usageText lib (reportedUsed vals) (reportedTotal vals)),
            [.query bufferPoolQuery]) := by
        simp [getBufferPoolUsage, hq, hl, h0]
      simp only [CheckDatabaseUptime, getUptime, getActiveConnections, getSlowQueries, hu, ha, hs,
        hb]
      split <;> simp [bufferPoolRow, usageText_ne_na]
  · simp [reportedTotal, reportedValue, lastOr]
  · simp [reportedUsed, reportedValue, lastOr]

/-- Witness for C4: the sample server reports 50 used pages of 200, so the
usage text is the percentage and not `"N/A"`. -/
theorem bufferPool_status_witness :
    sampleServer.bufferPool = .ok ([("Innodb_buffer_pool_pages_data", (50 : ℚ)),
      ("Innodb_buffer_pool_pages_total", (200 : ℚ))].map Except.ok) ∧
    reportedTotal [("Innodb_buffer_pool_pages_data", 50),
      ("Innodb_buffer_pool_pages_total", 200)] ≠ 0 ∧
    (getBufferPoolUsage sampleLib sampleServer).1 =
      .ok (sampleLib.fmtFixed2 (sampleLib.fmul (sampleLib.fdiv
        (reportedUsed [("Innodb_buffer_pool_pages_data", 50),
          ("Innodb_buffer_pool_pages_total", 200)])
        (reportedTotal [("Innodb_buffer_pool_pages_data", 50),
          ("Innodb_buffer_pool_pages_total", 200)])) 100) ++ "%") :=
  have hne : reportedTotal [("Innodb_buffer_pool_pages_data", 50),
      ("Innodb_buffer_pool_pages_total", 200)] ≠ 0 := by
    simp [reportedTotal, reportedValue, lastOr]
  ⟨rfl, hne, (bufferPool_status sampleLib sampleServer
    [("Innodb_buffer_pool_pages_data", 50), ("Innodb_buffer_pool_pages_total", 200)]
    rfl).2.2.1 hne⟩

theorem bufferPoolLoop_cases (rows : List (Except GoError (String × ℚ))) (t u : ℚ) :
    (rows.any decodeFails = true → ∃ e, bufferPoolLoop rows t u = .error e) ∧
    (rows.any decodeFails = false → ∃ p, bufferPoolLoop rows t u = .ok p) := by
  induction rows generalizing t u with
  | nil => simp [bufferPoolLoop]
  | cons r rest ih =>
    cases r with
    | error e => simp [bufferPoolLoop, decodeFails]
    | ok nv =>
      obtain ⟨name, value⟩ := nv
      simp only [List.any_cons, decodeFails, Bool.false_or]
      unfold bufferPoolLoop
      split
      · exact ih _ _
      · split
        · exact ih _ _
        · exact ih _ _

theorem getBufferPoolUsage_cases (lib : Lib) (srv : Server) :
    (rowsFail srv.bufferPool = true →
      ∃ e, getBufferPoolUsage lib srv = (.error e, [.query bufferPoolQuery])) ∧
    (rowsFail srv.bufferPool = false →
      ∃ v, getBufferPoolUsage lib srv = (.ok v, [.query bufferPoolQuery])) := by
  unfold getBufferPoolUsage rowsFail
  cases hq : srv.bufferPool with
  | error e => simp
  | ok rows =>
    simp only
    constructor
    · intro h
      obtain ⟨e, he⟩ := (bufferPoolLoop_cases rows 0 0).1 h
      rw [he]
      exact ⟨e, rfl⟩
    · intro h
      obtain ⟨⟨total, used⟩, hp⟩ := (bufferPoolLoop_cases rows 0 0).2 h
      rw [hp]
      simp only
      split
      · exact ⟨_, rfl⟩
      · exact ⟨_, rfl⟩

theorem getOpenTables_cases (srv : Server) :
    (∀ e, srv.openTables = .error e →
      ∃ e2, getOpenTables srv = (.error e2, [.query openTablesQuery])) ∧
    (∀ o e, srv.openTables = .ok o → srv.tableOpenCache = .error e →
      ∃ e2, getOpenTables srv = (.error e2, [.query openTablesQuery, .query tableOpenCacheQuery])) ∧
    (∀ o c, srv.openTables = .ok o → srv.tableOpenCache = .ok c →
      ∃ v, getOpenTables srv = (.ok v, [.query openTablesQuery, .query tableOpenCacheQuery])) := by
  unfold getOpenTables
  refine ⟨?_, ?_, ?_⟩
  · intro e h; rw [h]; exact ⟨_, rfl⟩
  · intro o e h1 h2; rw [h1, h2]; exact ⟨_, rfl⟩
  · intro o c h1 h2; rw [h1, h2]; exact ⟨_, rfl⟩

theorem health_group_shape (lib : Lib) (srv : Server) :
    (firstFailure (healthFailures srv) < 6 →
      abortedAfter (CheckDatabaseUptime lib srv)
        (healthQueries.take (firstFailure (healthFailures srv) + 1))) ∧
    (6 ≤ firstFailure (healthFailures srv) →
      completedAfter healthHeader (CheckDatabaseUptime lib srv) healthQueries) ∧
    bannersOf (CheckDatabaseUptime lib srv).events = [healthBanner] := by
  cases hu : srv.uptime with
  | error e =>
    simp [healthFailures, hu, decodeFails, firstFailure, CheckDatabaseUptime, getUptime,
      abortedAfter, queriesOf, rendersOf, bannersOf, healthQueries]
  | ok u =>
  cases ht : srv.threadsConnected with
  | error e =>
    simp [healthFailures, hu, ht, decodeFails, firstFailure, CheckDatabaseUptime, getUptime,
      getActiveConnections, abortedAfter, queriesOf, rendersOf, bannersOf, healthQueries]
  | ok a =>
  cases hs : srv.slowQueries with
  | error e =>
    simp [healthFailures, hu, ht, hs, decodeFails, firstFailure, CheckDatabaseUptime, getUptime,
      getActiveConnections, getSlowQueries, abortedAfter, queriesOf, rendersOf, bannersOf,
      healthQueries]
  | ok s =>
  cases hb : rowsFail srv.bufferPool with
  | true =>
    obtain ⟨e, he⟩ := (getBufferPoolUsage_cases lib srv).1 hb
    simp [healthFailures, hu, ht, hs, hb, he, decodeFails, firstFailure, CheckDatabaseUptime,
      getUptime, getActiveConnections, getSlowQueries, abortedAfter, queriesOf, rendersOf,
      bannersOf, healthQueries]
  | false =>
  obtain ⟨v, hv⟩ := (getBufferPoolUsage_cases lib srv).2 hb
  cases ho : srv.openTables with
  | error e =>
    obtain ⟨e2, he⟩ := (getOpenTables_cases srv).1 e ho
    simp [healthFailures, hu, ht, hs, hb, hv, ho, he, decodeFails, firstFailure,
      CheckDatabaseUptime, getUptime, getActiveConnections, getSlowQueries, abortedAfter,
      queriesOf, rendersOf, bannersOf, healthQueries]
  | ok o =>
  cases hc : srv.tableOpenCache with
  | error e =>
    obtain ⟨e2, he⟩ := (getOpenTables_cases srv).2.1 o e ho hc
    simp [healthFailures, hu, ht, hs, hb, hv, ho, hc, he, decodeFails, firstFailure,
      CheckDatabaseUptime, getUptime, getActiveConnections, getSlowQueries, abortedAfter,
      queriesOf, rendersOf, bannersOf, healthQueries]
  | ok c =>
    obtain ⟨w, hw⟩ := (getOpenTables_cases srv).2.2 o c ho hc
    simp [healthFailures, hu, ht, hs, hb, hv, ho, hc, hw, decodeFails, firstFailure,
      CheckDatabaseUptime, getUptime, getActiveConnections, getSlowQueries, completedAfter,
      queriesOf, rendersOf, bannersOf, healthQueries]

theorem checkEmptyPasswordsLoop_cases (rows : List (Except GoError (String × String)))
    (table : List Row) (b : Bool) :
    (rows.any decodeFails = true →
      ∃ e t f, checkEmptyPasswordsLoop rows table b = (some e, t, f)) ∧
    (rows.any decodeFails = false → ∃ t f, checkEmptyPasswordsLoop rows table b = (none, t, f)) := by
  induction rows generalizing table b with
  | nil => simp [checkEmptyPasswordsLoop]
  | cons r rest ih =>
    cases r with
    | error e => simp [checkEmptyPasswordsLoop, decodeFails]
    | ok p =>
      obtain ⟨user, host⟩ := p
      simp only [List.any_cons, decodeFails, Bool.false_or]
      unfold checkEmptyPasswordsLoop
      exact ih _ _

theorem checkAdminPrivilegesLoop_cases (rows : List (Except GoError (String × String)))
    (table : List Row) (b : Bool) :
    (rows.any decodeFails = true →
      ∃ e t f, checkAdminPrivilegesLoop rows table b = (some e, t, f)) ∧
    (rows.any decodeFails = false → ∃ t f, checkAdminPrivilegesLoop rows table b = (none, t, f)) := by
  induction rows generalizing table b with
  | nil => simp [checkAdminPrivilegesLoop]
  | cons r rest ih =>
    cases r with
    | error e => simp [checkAdminPrivilegesLoop, decodeFails]
    | ok p =>
      obtain ⟨user, host⟩ := p
      simp only [List.any_cons, decodeFails, Bool.false_or]
      unfold checkAdminPrivilegesLoop
      exact ih _ _

theorem checkIndexUsageLoop_cases (rows : List (Except GoError IndexRow))
    (table : List Row) (n : Nat) :
    (rows.any decodeFails = true → ∃ e t c, checkIndexUsageLoop rows table n = (some e, t, c)) ∧
    (rows.any decodeFails = false → ∃ t c, checkIndexUsageLoop rows table n = (none, t, c)) := by
  induction rows generalizing table n with
  | nil => simp [checkIndexUsageLoop]
  | cons r rest ih =>
    cases r with
    | error e => simp [checkIndexUsageLoop, decodeFails]
    | ok p =>
      simp only [List.any_cons, decodeFails, Bool.false_or]
      unfold checkIndexUsageLoop
      exact ih _ _

theorem checkEmptyPasswords_cases (srv : Server) (table : List Row) :
    (rowsFail srv.emptyPasswordUsers = true →
      ∃ e t, checkEmptyPasswords srv table = (some e, t, [.query emptyPasswordsQuery])) ∧
    (rowsFail srv.emptyPasswordUsers = false →
      ∃ t, checkEmptyPasswords srv table = (none, t, [.query emptyPasswordsQuery])) := by
  unfold checkEmptyPasswords rowsFail
  cases hq : srv.emptyPasswordUsers with
  | error e => simp
  | ok rows =>
    simp only
    constructor
    · intro h
      obtain ⟨e, t, f, he⟩ := (checkEmptyPasswordsLoop_cases rows table false).1 h
      rw [he]
      exact ⟨e, t, rfl⟩
    · intro h
      obtain ⟨t, f, he⟩ := (checkEmptyPasswordsLoop_cases rows table false).2 h
      rw [he]
      simp only
      split
      · exact ⟨_, rfl⟩
      · exact ⟨_, rfl⟩

theorem checkAdminPrivileges_cases (srv : Server) (table : List Row) :
    (rowsFail srv.superUsers = true →
      ∃ e t, checkAdminPrivileges srv table = (some e, t, [.query adminPrivilegesQuery])) ∧
    (rowsFail srv.superUsers = false →
      ∃ t, checkAdminPrivileges srv table = (none, t, [.query adminPrivilegesQuery])) := by
  unfold checkAdminPrivileges rowsFail
  cases hq : srv.superUsers with
  | error e => simp
  | ok rows =>
    simp only
    constructor
    · intro h
      obtain ⟨e, t, f, he⟩ := (checkAdminPrivilegesLoop_cases rows table false).1 h
      rw [he]
      exact ⟨e, t, rfl⟩
    · intro h
      obtain ⟨t, f, he⟩ := (checkAdminPrivilegesLoop_cases rows table false).2 h
      rw [he]
      simp only
      split
      · exact ⟨_, rfl⟩
      · exact ⟨_, rfl⟩

theorem checkIndexUsage_cases (srv : Server) (table : List Row) :
    (rowsFail srv.unindexedTables = true →
      ∃ e t, checkIndexUsage srv table = (some e, t, [.query indexUsageQuery])) ∧
    (rowsFail srv.unindexedTables = false →
      ∃ t, checkIndexUsage srv table = (none, t, [.query indexUsageQuery])) := by
  unfold checkIndexUsage rowsFail
  cases hq : srv.unindexedTables with
  | error e => simp
  | ok rows =>
    simp only
    constructor
    · intro h
      obtain ⟨e, t, f, he⟩ := (checkIndexUsageLoop_cases rows table 0).1 h
      rw [he]
      exact ⟨e, t, rfl⟩
    · intro h
      obtain ⟨t, f, he⟩ := (checkIndexUsageLoop_cases rows table 0).2 h
      rw [he]
      simp only
      split
      · exact ⟨_, rfl⟩
      · exact ⟨_, rfl⟩

theorem security_group_shape (srv : Server) :
    (firstFailure (securityFailures srv) < 3 →
      abortedAfter (BasicSecurityCheck srv)
        (securityQueries.take (firstFailure (securityFailures srv) + 1))) ∧
    (3 ≤ firstFailure (securityFailures srv) →
      completedAfter securityHeader (BasicSecurityCheck srv) securityQueries) ∧
    bannersOf (BasicSecurityCheck srv).events = [securityBanner] := by
  cases h1 : rowsFail srv.emptyPasswordUsers with
  | true =>
    obtain ⟨e, t, he⟩ := (checkEmptyPasswords_cases srv []).1 h1
    simp [securityFailures, h1, he, firstFailure, BasicSecurityCheck, abortedAfter, queriesOf,
      rendersOf, bannersOf, securityQueries]
  | false =>
  obtain ⟨t1, ht1⟩ := (checkEmptyPasswords_cases srv []).2 h1
  cases h2 : rowsFail srv.superUsers with
  | true =>
    obtain ⟨e, t, he⟩ := (checkAdminPrivileges_cases srv t1).1 h2
    simp [securityFailures, h1, h2, ht1, he, firstFailure, BasicSecurityCheck, abortedAfter,
      queriesOf, rendersOf, bannersOf, securityQueries]
  | false =>
  obtain ⟨t2, ht2⟩ := (checkAdminPrivileges_cases srv t1).2 h2
  cases h3 : srv.version with
  | error e =>
    simp [securityFailures, h1, h2, h3, ht1, ht2, decodeFails, firstFailure, BasicSecurityCheck,
      checkMySQLVersion, abortedAfter, queriesOf, rendersOf, bannersOf, securityQueries]
  | ok v =>
    simp [securityFailures, h1, h2, h3, ht1, ht2, decodeFails, firstFailure, BasicSecurityCheck,
      checkMySQLVersion, completedAfter, queriesOf, rendersOf, bannersOf, securityQueries]

theorem performance_group_shape (srv : Server) :
    completedAfter performanceHeader (BasicPerformanceCheck srv) [indexUsageQuery] ∧
    bannersOf (BasicPerformanceCheck srv).events = [performanceBanner] ∧
    (rowsFail srv.unindexedTables = true →
      ∃ e, (BasicPerformanceCheck srv).table.getLast? = some ["Index Usage", "FAILED", "Error: " ++ e] ∧
        Event.logged ("Error during index usage check: " ++ e) ∈ (BasicPerformanceCheck srv).events) := by
  cases h1 : rowsFail srv.unindexedTables with
  | true =>
    obtain ⟨e, t, he⟩ := (checkIndexUsage_cases srv []).1 h1
    simp only [he, BasicPerformanceCheck]
    refine ⟨?_, ?_, fun _ => ⟨e, ?_, ?_⟩⟩ <;>
      simp [completedAfter, queriesOf, rendersOf, bannersOf]
  | false =>
    obtain ⟨t, he⟩ := (checkIndexUsage_cases srv []).2 h1
    simp [he, BasicPerformanceCheck, completedAfter, queriesOf, rendersOf, bannersOf]

/-- C6 (as amended): in the health group and in the security group, when the
`k`-th statement is the first whose query or row decoding fails, the group
function returns an error having sent exactly the first `k + 1` statements and
rendered nothing, so no later check runs.  `BasicPerformanceCheck` never
returns an error: it always sends its one statement, renders its table and
returns `nil`; when that statement fails it logs the error and appends the row
`Index Usage`/`FAILED` carrying it. -/
theorem group_failure_behaviour (lib : Lib) (srv : Server) :
    (∀ k, firstFailure (healthFailures srv) = k → k < 6 →
      abortedAfter (CheckDatabaseUptime lib srv) (healthQueries.take (k + 1))) ∧
    (∀ k, firstFailure (securityFailures srv) = k → k < 3 →
      abortedAfter (BasicSecurityCheck srv) (securityQueries.take (k + 1))) ∧
    (BasicPerformanceCheck srv).err = none ∧
    queriesOf (BasicPerformanceCheck srv).events = [indexUsageQuery] ∧
    rendersOf (BasicPerformanceCheck srv).events =
      [(performanceHeader, (BasicPerformanceCheck srv).table)] ∧
    (rowsFail srv.unindexedTables = true →
      ∃ e, (BasicPerformanceCheck srv).table.getLast? =
          some ["Index Usage", "FAILED", "Error: " ++ e] ∧
        Event.logged ("Error during index usage check: " ++ e) ∈
          (BasicPerformanceCheck srv).events) := by
  obtain ⟨⟨hp1, hp2, hp3⟩, _, hp4⟩ := performance_group_shape srv
  refine ⟨?_, ?_, hp1, hp2, hp3, hp4⟩
  · intro k hk hlt
    subst hk
    exact (health_group_shape lib srv).1 hlt
  · intro k hk hlt
    subst hk
    exact (security_group_shape srv).1 hlt

/-- Witness for C6: on the server whose slow-query counter cannot be read, the
health group stops after its third statement. -/
theorem group_failure_behaviour_witness :
    firstFailure (healthFailures slowQueriesDownServer) = 2 ∧
    abortedAfter (CheckDatabaseUptime sampleLib slowQueriesDownServer)
      [uptimeQuery, threadsQuery, slowQueriesQuery] :=
  ⟨by decide,
    (group_failure_behaviour sampleLib slowQueriesDownServer).1 2 (by decide) (by decide)⟩

/-- Counterexample to C6 as stated: the statement of the performance group
fails, yet `BasicPerformanceCheck` returns `nil`. -/
theorem performance_failure_returns_nil :
    rowsFail indexQueryDownServer.unindexedTables = true ∧
    (BasicPerformanceCheck indexQueryDownServer).err = none ∧
    (BasicPerformanceCheck indexQueryDownServer).table =
      [["Index Usage", "FAILED", "Error: error querying database for index usage: access denied"]] := by
  refine ⟨by decide, by decide, by decide⟩

theorem bannersOf_append (a b : List Event) : bannersOf (a ++ b) = bannersOf a ++ bannersOf b := by
  simp [bannersOf, List.filterMap_append]

theorem queriesOf_append (a b : List Event) : queriesOf (a ++ b) = queriesOf a ++ queriesOf b := by
  simp [queriesOf, List.filterMap_append]

/-- C7: for every configuration, if `sql.Open` or the liveness ping fails,
`ConnectDatabase` returns an error (and no handle), and `executeSniff` only
prints that error: it sends no statement, starts no probe group and renders no
table. -/
theorem connect_failure_stops (lib : Lib) (srv : Server) (cfg : DBConfig)
    (h : srv.openErr ≠ none ∨ srv.pingErr ≠ none) :
    (∃ e, (ConnectDatabase srv cfg).1 = .error e ∧
      executeSniff lib srv cfg = (ConnectDatabase srv cfg).2 ++
        [.stdout ("Error connecting to the database: " ++ e ++ "\n")]) ∧
    queriesOf (executeSniff lib srv cfg) = [] ∧
    bannersOf (executeSniff lib srv cfg) = [] ∧
    rendersOf (executeSniff lib srv cfg) = [] := by
  cases ho : srv.openErr with
  | some e =>
    simp [executeSniff, ConnectDatabase, ho, queriesOf, bannersOf, rendersOf]
  | none =>
    cases hp : srv.pingErr with
    | some e =>
      simp [executeSniff, ConnectDatabase, ho, hp, queriesOf, bannersOf, rendersOf]
    | none =>
      rcases h with h | h
      · exact absurd ho h
      · exact absurd hp h

/-- Witness for C7: the server refusing the liveness check. -/
theorem connect_failure_stops_witness :
    (pingDownServer.openErr ≠ none ∨ pingDownServer.pingErr ≠ none) ∧
    queriesOf (executeSniff sampleLib pingDownServer sampleConfig) = [] :=
  ⟨Or.inr (by decide),
    (connect_failure_stops sampleLib pingDownServer sampleConfig (Or.inr (by decide))).2.1⟩

theorem GetTableSchema_events (srv : Server) (t : String) :
    GetTableSchema srv t = ((GetTableSchema srv t).1, [.query ("DESCRIBE " ++ t)]) := by
  unfold GetTableSchema
  split <;> rfl

theorem GetTables_events (srv : Server) :
    GetTables srv = ((GetTables srv).1, [.query "SHOW TABLES"]) := by
  unfold GetTables
  split <;> rfl

theorem displayTables_fatal (srv : Server) (tables : List String) (k : Nat)
    (hf : ∃ t ∈ tables.take (5 - k), ∃ e, (GetTableSchema srv t).1 = .error e) :
    (displayTables srv tables k).2.1 = true ∧
    ∃ pre msg, (displayTables srv tables k).2.2 = pre ++ [.fatal msg] := by
  induction tables generalizing k with
  | nil => simp at hf
  | cons t rest ih =>
    unfold displayTables
    by_cases hk : k ≥ 5
    · have : 5 - k = 0 := by omega
      simp [this] at hf
    · rw [if_neg hk]
      have h5 : 5 - k = (5 - (k + 1)) + 1 := by omega
      rw [h5, List.take_succ_cons] at hf
      rw [GetTableSchema_events]
      cases hr : (GetTableSchema srv t).1 with
      | error e =>
        exact ⟨rfl, _, _, rfl⟩
      | ok columns =>
        simp only
        obtain ⟨u, hu, e, he⟩ := hf
        have hrest : ∃ t ∈ rest.take (5 - (k + 1)), ∃ e, (GetTableSchema srv t).1 = .error e := by
          rcases List.mem_cons.1 hu with h1 | h1
          · subst h1
            rw [hr] at he
            cases he
          · exact ⟨u, h1, e, he⟩
        obtain ⟨h1, pre, msg, h2⟩ := ih (k + 1) hrest
        refine ⟨h1, [.stdout ("\n" ++ t ++ "\n")] ++ [.query ("DESCRIBE " ++ t)] ++
          [.render columnHeader (appendColumns columns 0 [])] ++ pre, msg, ?_⟩
        rw [h2]
        simp only [List.append_assoc]

theorem bannersOf_displayTables (srv : Server) (tables : List String) (k : Nat) :
    bannersOf (displayTables srv tables k).2.2 = [] := by
  induction tables generalizing k with
  | nil => simp [displayTables, bannersOf]
  | cons t rest ih =>
    unfold displayTables
    split
    · simp [bannersOf]
    · rw [GetTableSchema_events]
      cases hr : (GetTableSchema srv t).1 with
      | error e => simp [bannersOf]
      | ok columns =>
        simp only [bannersOf_append, ih]
        simp [bannersOf]

theorem bannersOf_displayDatabaseInfo (srv : Server) :
    bannersOf (displayDatabaseInfo srv).2 = [] := by
  unfold displayDatabaseInfo
  rw [GetTables_events]
  cases hr : (GetTables srv).1 with
  | error e => simp [bannersOf]
  | ok tables =>
    simp only
    split
    · simp only [bannersOf_append, bannersOf_displayTables]
      simp [bannersOf]
    · split
      · simp only [bannersOf_append, bannersOf_displayTables]
        simp [bannersOf]
      · simp only [bannersOf_append, bannersOf_displayTables]
        simp [bannersOf]

theorem bannersOf_ConnectDatabase (srv : Server) (cfg : DBConfig) :
    bannersOf (ConnectDatabase srv cfg).2 = [] := by
  unfold ConnectDatabase
  split
  · simp [bannersOf]
  · split <;> simp [bannersOf]

theorem displayDatabaseInfo_fatal (srv : Server)
    (hf : (∃ e, (GetTables srv).1 = .error e) ∨
      ∃ tables, (GetTables srv).1 = .ok tables ∧
        ∃ t ∈ tables.take 5, ∃ e, (GetTableSchema srv t).1 = .error e) :
    (displayDatabaseInfo srv).1 = true ∧
    ∃ pre msg, (displayDatabaseInfo srv).2 = pre ++ [.fatal msg] := by
  unfold displayDatabaseInfo
  rw [GetTables_events]
  rcases hf with ⟨e, he⟩ | ⟨tables, ht, hf⟩
  · rw [he]
    exact ⟨rfl, _, _, rfl⟩
  · rw [ht]
    obtain ⟨h1, pre, msg, h2⟩ := displayTables_fatal srv tables 0 (by simpa using hf)
    simp only [h1, if_true]
    refine ⟨trivial, [.query "SHOW TABLES"] ++ [.stdout "\nTables in the database:\n"] ++ pre,
      msg, ?_⟩
    rw [h2]
    simp only [List.append_assoc]

/-- C10: once connected, if `GetTables` fails, or `GetTableSchema` fails for one
of the first five tables, `displayDatabaseInfo` ends the process with
`log.Fatalf`: the run of `executeSniff` consists of the connection and the
display effects only, ends with the fatal message, and starts none of the
three probe groups. -/
theorem introspection_failure_fatal (lib : Lib) (srv : Server) (cfg : DBConfig)
    (hc : (ConnectDatabase srv cfg).1 = .ok ())
    (hf : (∃ e, (GetTables srv).1 = .error e) ∨
      ∃ tables, (GetTables srv).1 = .ok tables ∧
        ∃ t ∈ tables.take 5, ∃ e, (GetTableSchema srv t).1 = .error e) :
    (displayDatabaseInfo srv).1 = true ∧
    executeSniff lib srv cfg =
      (ConnectDatabase srv cfg).2 ++ [.stdout "Successfully connected to the database.\n"] ++
        (displayDatabaseInfo srv).2 ∧
    (∃ pre msg, executeSniff lib srv cfg = pre ++ [.fatal msg]) ∧
    bannersOf (executeSniff lib srv cfg) = [] ∧
    (∀ q ∈ queriesOf (executeSniff lib srv cfg), q ∈ queriesOf (displayDatabaseInfo srv).2) := by
  obtain ⟨h1, pre, msg, h2⟩ := displayDatabaseInfo_fatal srv hf
  have hrun : executeSniff lib srv cfg =
      (ConnectDatabase srv cfg).2 ++ [.stdout "Successfully connected to the database.\n"] ++
        (displayDatabaseInfo srv).2 := by
    unfold executeSniff
    have hcd : ConnectDatabase srv cfg = (.ok (), (ConnectDatabase srv cfg).2) := by
      rw [← hc]
    have hdd : displayDatabaseInfo srv = (true, (displayDatabaseInfo srv).2) := by
      rw [← h1]
    rw [hcd, hdd]
  refine ⟨h1, hrun, ?_, ?_, ?_⟩
  · rw [hrun, h2]
    exact ⟨(ConnectDatabase srv cfg).2 ++
      ([.stdout "Successfully connected to the database.\n"] ++ pre), msg,
      by simp only [List.append_assoc]⟩
  · rw [hrun]
    simp only [bannersOf_append, bannersOf_ConnectDatabase, bannersOf_displayDatabaseInfo]
    simp [bannersOf]
  · rw [hrun]
    intro q hq
    simp only [queriesOf_append] at hq
    have hcq : queriesOf (ConnectDatabase srv cfg).2 = [] := by
      unfold ConnectDatabase
      split
      · simp [queriesOf]
      · split <;> simp [queriesOf]
    rw [hcq] at hq
    simpa [queriesOf] using hq

/-- Witness for C10: `DESCRIBE orders` fails on the second of two tables. -/
theorem introspection_failure_fatal_witness :
    (ConnectDatabase describeDownServer sampleConfig).1 = .ok () ∧
    (GetTableSchema describeDownServer "orders").1 = .error "table is corrupt" ∧
    bannersOf (executeSniff sampleLib describeDownServer sampleConfig) = [] :=
  ⟨rfl, rfl,
    (introspection_failure_fatal sampleLib describeDownServer sampleConfig rfl
      (Or.inr ⟨["users", "orders"], rfl, "orders", by decide, "table is corrupt", rfl⟩)).2.2.2.1⟩

/-- C8: once the connection and the schema display have succeeded, whatever
the three groups do, a run of `executeSniff` is the display followed by the
health group, the security group and the performance group, each exactly once
and in this order, and then the closing message; the error a group returns is
printed, and a failure of the performance statement is logged by the group
itself. -/
theorem groups_run_in_order (lib : Lib) (srv : Server) (cfg : DBConfig)
    (hc : (ConnectDatabase srv cfg).1 = .ok ())
    (hd : (displayDatabaseInfo srv).1 = false) :
    executeSniff lib srv cfg =
      (ConnectDatabase srv cfg).2 ++ [.stdout "Successfully connected to the database.\n"] ++
        (displayDatabaseInfo srv).2 ++
        [separator] ++ (CheckDatabaseUptime lib srv).events ++
          reportFailure "Health" (CheckDatabaseUptime lib srv).err ++
        [separator] ++ (BasicSecurityCheck srv).events ++
          reportFailure "Security" (BasicSecurityCheck srv).err ++
        [separator] ++ (BasicPerformanceCheck srv).events ++
        [.setColor "hi-yellow bold", .stdout closingMessage, .unsetColor, .dbClose] ∧
    bannersOf (executeSniff lib srv cfg) = [healthBanner, securityBanner, performanceBanner] ∧
    (∀ e, (CheckDatabaseUptime lib srv).err = some e →
      Event.stdout ("Health checks failed: " ++ e ++ "\n") ∈ executeSniff lib srv cfg) ∧
    (∀ e, (BasicSecurityCheck srv).err = some e →
      Event.stdout ("Security checks failed: " ++ e ++ "\n") ∈ executeSniff lib srv cfg) ∧
    (rowsFail srv.unindexedTables = true →
      ∃ e, Event.logged ("Error during index usage check: " ++ e) ∈ executeSniff lib srv cfg) ∧
    Event.query indexUsageQuery ∈ executeSniff lib srv cfg := by
  obtain ⟨⟨hp1, hp2, _⟩, hpb, hp4⟩ := performance_group_shape srv
  have hrun : executeSniff lib srv cfg =
      (ConnectDatabase srv cfg).2 ++ [.stdout "Successfully connected to the database.\n"] ++
        (displayDatabaseInfo srv).2 ++
        [separator] ++ (CheckDatabaseUptime lib srv).events ++
          reportFailure "Health" (CheckDatabaseUptime lib srv).err ++
        [separator] ++ (BasicSecurityCheck srv).events ++
          reportFailure "Security" (BasicSecurityCheck srv).err ++
        [separator] ++ (BasicPerformanceCheck srv).events ++
        [.setColor "hi-yellow bold", .stdout closingMessage, .unsetColor, .dbClose] := by
    unfold executeSniff
    have hcd : ConnectDatabase srv cfg = (.ok (), (ConnectDatabase srv cfg).2) := by
      rw [← hc]
    have hdd : displayDatabaseInfo srv = (false, (displayDatabaseInfo srv).2) := by
      rw [← hd]
    rw [hcd, hdd]
    simp only [hp1, reportFailure, List.append_nil]
  have hrep : ∀ (label : String) (err : Option GoError), bannersOf (reportFailure label err) = [] := by
    intro label err
    cases err <;> simp [reportFailure, bannersOf]
  refine ⟨hrun, ?_, ?_, ?_, ?_, ?_⟩
  · rw [hrun]
    simp only [bannersOf_append, bannersOf_ConnectDatabase, bannersOf_displayDatabaseInfo,
      (health_group_shape lib srv).2.2, (security_group_shape srv).2.2, hpb, hrep]
    simp [bannersOf, separator]
  · intro e he
    rw [hrun, he]
    simp [reportFailure]
  · intro e he
    rw [hrun, he]
    simp [reportFailure]
  · intro hfail
    obtain ⟨e, _, hlog⟩ := hp4 hfail
    refine ⟨e, ?_⟩
    rw [hrun]
    simp [hlog]
  · have hq : Event.query indexUsageQuery ∈ (BasicPerformanceCheck srv).events := by
      have hmem : indexUsageQuery ∈ queriesOf (BasicPerformanceCheck srv).events := by
        rw [hp2]; exact List.mem_singleton.2 rfl
      unfold queriesOf at hmem
      obtain ⟨ev, hev, hsome⟩ := List.mem_filterMap.1 hmem
      cases ev <;> simp at hsome
      subst hsome
      exact hev
    rw [hrun]
    simp [hq]

/-- Witness for C8: on the server whose slow-query counter cannot be read the
health group fails, and the three groups still start in order. -/
theorem groups_run_in_order_witness :
    (ConnectDatabase slowQueriesDownServer sampleConfig).1 = .ok () ∧
    (displayDatabaseInfo slowQueriesDownServer).1 = false ∧
    (CheckDatabaseUptime sampleLib slowQueriesDownServer).err =
      some "error retrieving slow queries: connection reset" ∧
    bannersOf (executeSniff sampleLib slowQueriesDownServer sampleConfig) =
      [healthBanner, securityBanner, performanceBanner] :=
  ⟨rfl, by decide, by decide,
    (groups_run_in_order sampleLib slowQueriesDownServer sampleConfig rfl (by decide)).2.1⟩

end GoDBSniffer
